import Mathlib

/-!
Shallow embedding of the ak09916 magnetometer driver (src/lib.rs and
src/regs.rs) together with proofs about its register codec, measurement
decoding, and the bus-operation traces of its high-level operations.

Bytes are modelled as `Nat` values reduced modulo 256 where the Rust `u8`
type enforces the range; signed 16-bit and 32-bit quantities are modelled
as `Int` with explicit two's-complement reduction.  The I2C bus together
with the device is modelled as an oracle assigning to every bus
transaction (indexed by the order it is issued) either an opaque transport
error or the list of bytes the device answers with.  Every driver
function additionally records the exact list of bus operations and waits
it performs.
-/

/-- I2C address of the AK09916 (`I2C_ADDRESS` in lib.rs). -/
def I2C_ADDRESS : Nat := 0x0c

/-- Minimum wait time before setting mode in microseconds
(`MODE_SET_WAIT_TIME_US` in lib.rs). -/
def MODE_SET_WAIT_TIME_US : Nat := 100

/-- Sensitivity of the sensor as nT per bit (`SENSITIVITY_NT_PER_BIT`). -/
def SENSITIVITY_NT_PER_BIT : Int := 150

/-- Byte number `i` of a buffer, as a `u8` value (out-of-range indices give
0, mirroring the zero-initialised Rust buffers). -/
def byteAt (l : List Nat) (i : Nat) : Nat := l.getD i 0 % 256

/-- Rust `i16::from_le_bytes` applied to two bytes. -/
def i16_from_le_bytes (lo hi : Nat) : Int :=
  let v : Nat := lo % 256 + 256 * (hi % 256)
  if v < 32768 then (v : Int) else (v : Int) - 65536

/-- Two's-complement wrapping of an integer into the `i32` range
(the literals are 2 to the 31st and 2 to the 32nd power). -/
def wrapI32 (v : Int) : Int := (v + 2147483648) % 4294967296 - 2147483648

/-- Operation mode setting (`Mode` in lib.rs). -/
inductive Mode where
  | powerDown
  | singleMeasurement
  | continuous10Hz
  | continuous20Hz
  | continuous50Hz
  | continuous100Hz
  | selfTest
deriving DecidableEq, Repr

/-- The 5-bit code of each mode (the `u8` discriminants in lib.rs). -/
def Mode.toByte : Mode → Nat
  | .powerDown => 0b00000
  | .singleMeasurement => 0b00001
  | .continuous10Hz => 0b00010
  | .continuous20Hz => 0b00100
  | .continuous50Hz => 0b00110
  | .continuous100Hz => 0b01000
  | .selfTest => 0b10000

/-- Rust `Mode::try_from` (derived `TryFromPrimitive`). -/
def Mode.tryFrom (b : Nat) : Option Mode :=
  if b = 0b00000 then some .powerDown
  else if b = 0b00001 then some .singleMeasurement
  else if b = 0b00010 then some .continuous10Hz
  else if b = 0b00100 then some .continuous20Hz
  else if b = 0b00110 then some .continuous50Hz
  else if b = 0b01000 then some .continuous100Hz
  else if b = 0b10000 then some .selfTest
  else none

namespace regs

/-- Register address constants (`RegisterAddress` in regs.rs). -/
def RegisterAddress.Wia1 : Nat := 0x00

/-- Device ID register address. -/
def RegisterAddress.Wia2 : Nat := 0x01

/-- Status 1 register address. -/
def RegisterAddress.St1 : Nat := 0x10

/-- X-axis LSB register address. -/
def RegisterAddress.Hxl : Nat := 0x11

/-- Status 2 register address. -/
def RegisterAddress.St2 : Nat := 0x18

/-- Control 2 (mode) register address. -/
def RegisterAddress.Cntl2 : Nat := 0x31

/-- Control 3 register address. -/
def RegisterAddress.Cntl3 : Nat := 0x32

/-- Company ID of AKM (`Wia1::AKM`). -/
def Wia1.AKM : Nat := 0x48

/-- Device ID of the AK09916 (`Wia2::AK09916`). -/
def Wia2.AK09916 : Nat := 0x09

/-- Transparent decode of the company-ID register (`From<u8> for Wia1`). -/
def Wia1.fromByte (b : Nat) : Nat := b

/-- Transparent encode of the company-ID register (`From<Wia1> for u8`). -/
def Wia1.toByte (v : Nat) : Nat := v

/-- Transparent decode of the device-ID register. -/
def Wia2.fromByte (b : Nat) : Nat := b

/-- Transparent encode of the device-ID register. -/
def Wia2.toByte (v : Nat) : Nat := v

/-- Transparent decode of the X-axis LSB register (`Hxl`). -/
def Hxl.fromByte (b : Nat) : Nat := b

/-- Transparent encode of the X-axis LSB register. -/
def Hxl.toByte (v : Nat) : Nat := v

/-- Transparent decode of the X-axis MSB register (`Hxh`). -/
def Hxh.fromByte (b : Nat) : Nat := b

/-- Transparent encode of the X-axis MSB register. -/
def Hxh.toByte (v : Nat) : Nat := v

/-- Transparent decode of the Y-axis LSB register (`Hyl`). -/
def Hyl.fromByte (b : Nat) : Nat := b

/-- Transparent encode of the Y-axis LSB register. -/
def Hyl.toByte (v : Nat) : Nat := v

/-- Transparent decode of the Y-axis MSB register (`Hyh`). -/
def Hyh.fromByte (b : Nat) : Nat := b

/-- Transparent encode of the Y-axis MSB register. -/
def Hyh.toByte (v : Nat) : Nat := v

/-- Transparent decode of the Z-axis LSB register (`Hzl`). -/
def Hzl.fromByte (b : Nat) : Nat := b

/-- Transparent encode of the Z-axis LSB register. -/
def Hzl.toByte (v : Nat) : Nat := v

/-- Transparent decode of the Z-axis MSB register (`Hzh`). -/
def Hzh.fromByte (b : Nat) : Nat := b

/-- Transparent encode of the Z-axis MSB register. -/
def Hzh.toByte (v : Nat) : Nat := v

/-- Status 1 flag: data overrun (`St1::DOR`). -/
def St1.DOR : Nat := 1 <<< 1

/-- Status 1 flag: data ready (`St1::DRDY`). -/
def St1.DRDY : Nat := 1 <<< 0

/-- Rust `St1::from_bits_truncate`: keep only the defined flag bits. -/
def St1.fromByte (b : Nat) : Nat := b &&& (St1.DOR ||| St1.DRDY)

/-- Rust `St1::bits`. -/
def St1.toByte (v : Nat) : Nat := v

/-- Rust bitflags `contains`: all bits of the flag are present. -/
def St1.contains (v flag : Nat) : Bool := v &&& flag == flag

/-- Status 2 reserved flag bit 6 (`St2::RSV30`). -/
def St2.RSV30 : Nat := 1 <<< 6

/-- Status 2 reserved flag bit 5 (`St2::RSV29`). -/
def St2.RSV29 : Nat := 1 <<< 5

/-- Status 2 reserved flag bit 4 (`St2::RSV28`). -/
def St2.RSV28 : Nat := 1 <<< 4

/-- Status 2 flag: magnetic sensor overflow (`St2::HOFL`). -/
def St2.HOFL : Nat := 1 <<< 3

/-- Rust `St2::from_bits_truncate`. -/
def St2.fromByte (b : Nat) : Nat :=
  b &&& (St2.RSV30 ||| St2.RSV29 ||| St2.RSV28 ||| St2.HOFL)

/-- Rust `St2::bits`. -/
def St2.toByte (v : Nat) : Nat := v

/-- Rust bitflags `contains` for `St2`. -/
def St2.contains (v flag : Nat) : Bool := v &&& flag == flag

/-- Control 3 flag: soft reset request (`Cntl3::SRST`). -/
def Cntl3.SRST : Nat := 1 <<< 0

/-- Rust `Cntl3::from_bits_truncate`. -/
def Cntl3.fromByte (b : Nat) : Nat := b &&& Cntl3.SRST

/-- Rust `Cntl3::bits`. -/
def Cntl3.toByte (v : Nat) : Nat := v

/-- Rust bitflags `contains` for `Cntl3`. -/
def Cntl3.contains (v flag : Nat) : Bool := v &&& flag == flag

/-- Content of the mode-control register (`ModeRegister` in regs.rs): either
a recognised mode or an opaque leftover 5-bit code. -/
inductive ModeRegister where
  | mode (m : Mode)
  | other (value : Nat)
deriving DecidableEq, Repr

/-- Rust `From<u8> for ModeRegister`: try the low 5 bits as a mode, keep the
failing 5-bit value otherwise. -/
def ModeRegister.fromByte (b : Nat) : ModeRegister :=
  match Mode.tryFrom (b &&& 0b11111) with
  | some m => .mode m
  | none => .other (b &&& 0b11111)

/-- Rust `From<ModeRegister> for u8`. -/
def ModeRegister.toByte : ModeRegister → Nat
  | .mode m => m.toByte
  | .other v => v

/-- Rust `From<Mode> for Cntl2`. -/
def Cntl2.fromMode (m : Mode) : ModeRegister := .mode m

/-- Rust `From<u8> for Cntl2` (decodes through `ModeRegister`). -/
def Cntl2.fromByte (b : Nat) : ModeRegister := ModeRegister.fromByte b

/-- Rust `From<Cntl2> for u8`. -/
def Cntl2.toByte (v : ModeRegister) : Nat := v.toByte

/-- An 8-bit register abstraction (`Register8` trait): its address and its
byte decode, with the decoded value carried as its re-encoded byte. -/
structure Reg8 where
  addr : Nat
  decode : Nat → Nat

/-- A 16-bit register abstraction (`Register16` trait): its address.  All
three such registers decode as the identity on `i16`. -/
structure Reg16 where
  addr : Nat

/-- The `St1` register as a `Reg8`. -/
def St1.reg : Reg8 := ⟨RegisterAddress.St1, St1.fromByte⟩

/-- The `St2` register as a `Reg8`. -/
def St2.reg : Reg8 := ⟨RegisterAddress.St2, St2.fromByte⟩

/-- The `Cntl3` register as a `Reg8`. -/
def Cntl3.reg : Reg8 := ⟨RegisterAddress.Cntl3, Cntl3.fromByte⟩

/-- The `Wia1` register as a `Reg8`. -/
def Wia1.reg : Reg8 := ⟨RegisterAddress.Wia1, Wia1.fromByte⟩

/-- The `Wia2` register as a `Reg8`. -/
def Wia2.reg : Reg8 := ⟨RegisterAddress.Wia2, Wia2.fromByte⟩

/-- Full dump of non-reserved registers (`RegisterDump` in regs.rs). -/
structure RegisterDump where
  company_id : Nat
  device_id : Nat
  st1 : Nat
  hx : Int
  hy : Int
  hz : Int
  st2 : Nat
  mode : ModeRegister
  cntl3 : Nat
deriving DecidableEq, Repr

/-- Rust `RegisterDump::from_raw_data` on the 16-byte buffer. -/
def RegisterDump.from_raw_data (buffer : List Nat) : RegisterDump :=
  ⟨Wia1.fromByte (byteAt buffer 0),
   Wia2.fromByte (byteAt buffer 1),
   St1.fromByte (byteAt buffer 4),
   i16_from_le_bytes (byteAt buffer 5) (byteAt buffer 6),
   i16_from_le_bytes (byteAt buffer 7) (byteAt buffer 8),
   i16_from_le_bytes (byteAt buffer 9) (byteAt buffer 10),
   St2.fromByte (byteAt buffer 12),
   Cntl2.fromByte (byteAt buffer 14),
   Cntl3.fromByte (byteAt buffer 15)⟩

end regs

/-- Who I Am register data (`WhoIAm` in lib.rs). -/
structure WhoIAm where
  company_id : Nat
  device_id : Nat
deriving DecidableEq, Repr

/-- Expected Who I Am data for the AK09916. -/
def WhoIAm.AK09916 : WhoIAm := ⟨regs.Wia1.AKM, regs.Wia2.AK09916⟩

/-- Measurement flag: magnetic sensor overflow (`MeasurementFlags::OVERFLOW`). -/
def MeasurementFlags.OVERFLOW : Nat := 1 <<< 3

/-- Measurement flag: data overrun (`MeasurementFlags::OVERRUN`). -/
def MeasurementFlags.OVERRUN : Nat := 1 <<< 1

/-- Rust bitflags `contains` for `MeasurementFlags`. -/
def MeasurementFlags.contains (v flag : Nat) : Bool := v &&& flag == flag

/-- Measurement data (`Measurement` in lib.rs). -/
structure Measurement where
  hx : Int
  hy : Int
  hz : Int
  flags : Nat
deriving DecidableEq, Repr

/-- X-axis in nT (`Measurement::x_nanoteslas`, `i32` arithmetic). -/
def Measurement.x_nanoteslas (m : Measurement) : Int :=
  wrapI32 (m.hx * SENSITIVITY_NT_PER_BIT)

/-- Y-axis in nT. -/
def Measurement.y_nanoteslas (m : Measurement) : Int :=
  wrapI32 (m.hy * SENSITIVITY_NT_PER_BIT)

/-- Z-axis in nT. -/
def Measurement.z_nanoteslas (m : Measurement) : Int :=
  wrapI32 (m.hz * SENSITIVITY_NT_PER_BIT)

/-- Rust `Measurement::overrun`. -/
def Measurement.overrun (m : Measurement) : Bool :=
  MeasurementFlags.contains m.flags MeasurementFlags.OVERRUN

/-- Rust `Measurement::overflow`. -/
def Measurement.overflow (m : Measurement) : Bool :=
  MeasurementFlags.contains m.flags MeasurementFlags.OVERFLOW

/-- Rust `Measurement::from_raw_data`: decode the 8-byte block together
with the already-decoded status-1 value. -/
def Measurement.from_raw_data (st1 : Nat) (buffer : List Nat) : Measurement :=
  let st2 := regs.St2.fromByte (byteAt buffer 7)
  ⟨i16_from_le_bytes (byteAt buffer 0) (byteAt buffer 1),
   i16_from_le_bytes (byteAt buffer 2) (byteAt buffer 3),
   i16_from_le_bytes (byteAt buffer 4) (byteAt buffer 5),
   (if regs.St1.contains st1 regs.St1.DOR then MeasurementFlags.OVERRUN else 0) |||
     (if regs.St2.contains st2 regs.St2.HOFL then MeasurementFlags.OVERFLOW else 0)⟩

/-- Result for a self-test (`SelfTestResult` in lib.rs). -/
structure SelfTestResult where
  measurement : Measurement
  is_valid : Bool
deriving DecidableEq, Repr

/-- Rust `From<Measurement> for SelfTestResult`. -/
def SelfTestResult.fromMeasurement (m : Measurement) : SelfTestResult :=
  ⟨m, decide (-200 ≤ m.hx ∧ m.hx ≤ 200 ∧ -200 ≤ m.hy ∧ m.hy ≤ 200 ∧
      -1000 ≤ m.hz ∧ m.hz ≤ -200)⟩

/-- One operation on the I2C bus or delay provider, as observed on the wire. -/
inductive BusOp where
  | write (addr : Nat) (data : List Nat)
  | writeRead (addr : Nat) (data : List Nat) (readLen : Nat)
  | read (addr : Nat) (readLen : Nat)
  | wait (us : Nat)
deriving DecidableEq, Repr

/-- Whether a bus operation is a combined write-then-read transaction. -/
def BusOp.isWriteRead : BusOp → Bool
  | .writeRead _ _ _ => true
  | _ => false

/-- Device-and-bus oracle: the response (bytes read, or a transport error)
to the bus transaction issued at each transaction index.  Waits consume no
response. -/
def Resp (ε : Type) : Type := Nat → Except ε (List Nat)

namespace blocking

variable {ε : Type}

/-- Rust `blocking::Ak09916::read_register8`: one combined write-then-read
of the register address and one data byte, decoded by the register. -/
def read_register8 (reg : regs.Reg8) (resp : Resp ε) (k : Nat) :
    Except ε Nat × Nat × List BusOp :=
  ((resp k).map (fun buffer => reg.decode (byteAt buffer 0)), k + 1,
    [BusOp.writeRead I2C_ADDRESS [reg.addr] 1])

/-- Rust `blocking::Ak09916::read_register16`: one combined write-then-read
of the register address and two little-endian data bytes. -/
def read_register16 (reg : regs.Reg16) (resp : Resp ε) (k : Nat) :
    Except ε Int × Nat × List BusOp :=
  ((resp k).map (fun buffer => i16_from_le_bytes (byteAt buffer 0) (byteAt buffer 1)),
    k + 1, [BusOp.writeRead I2C_ADDRESS [reg.addr] 2])

/-- Rust `blocking::Ak09916::write_register8`: one write of the register
address followed by the encoded register byte. -/
def write_register8 (addr value : Nat) (resp : Resp ε) (k : Nat) :
    Except ε Unit × Nat × List BusOp :=
  ((resp k).map (fun _ => ()), k + 1, [BusOp.write I2C_ADDRESS [addr, value]])

/-- Rust `blocking::Ak09916::who_i_am`. -/
def who_i_am (resp : Resp ε) (k : Nat) : Except ε WhoIAm × Nat × List BusOp :=
  ((resp k).map (fun buffer =>
      ⟨regs.Wia1.fromByte (byteAt buffer 0), regs.Wia2.fromByte (byteAt buffer 1)⟩),
    k + 1, [BusOp.writeRead I2C_ADDRESS [regs.RegisterAddress.Wia1] 2])

/-- The status-polling loop inside `blocking::Ak09916::poll_measurement`,
made total with a fuel bound on the number of status reads; `none` means
the loop is still running when the fuel runs out. -/
def poll_loop (poll_interval_us : Nat) (resp : Resp ε) :
    Nat → Nat → Option (Except ε Nat) × Nat × List BusOp
  | 0, k => (none, k, [])
  | fuel + 1, k =>
    match read_register8 regs.St1.reg resp k with
    | (Except.error e, k', tr) => (some (Except.error e), k', tr)
    | (Except.ok st1, k', tr) =>
      if regs.St1.contains st1 regs.St1.DRDY then (some (Except.ok st1), k', tr)
      else
        match poll_loop poll_interval_us resp fuel k' with
        | (r, k'', tr') => (r, k'', tr ++ [BusOp.wait poll_interval_us] ++ tr')

/-- Rust `blocking::Ak09916::poll_measurement`: poll status 1 until the
data-ready bit is set, then fetch the 8-byte block with a bare read. -/
def poll_measurement (poll_interval_us : Nat) (resp : Resp ε) (fuel k : Nat) :
    Option (Except ε Measurement) × Nat × List BusOp :=
  match poll_loop poll_interval_us resp fuel k with
  | (none, k', tr) => (none, k', tr)
  | (some (Except.error e), k', tr) => (some (Except.error e), k', tr)
  | (some (Except.ok st1), k', tr) =>
    (some ((resp k').map (fun buffer => Measurement.from_raw_data st1 buffer)),
      k' + 1, tr ++ [BusOp.read I2C_ADDRESS 8])

/-- Rust `blocking::Ak09916::read_measurement`: one status check; on
data-ready fetch the 8-byte block with a bare read, otherwise `none`. -/
def read_measurement (resp : Resp ε) (k : Nat) :
    Except ε (Option Measurement) × Nat × List BusOp :=
  match read_register8 regs.St1.reg resp k with
  | (Except.error e, k', tr) => (Except.error e, k', tr)
  | (Except.ok st1, k', tr) =>
    if regs.St1.contains st1 regs.St1.DRDY then
      ((resp k').map (fun buffer => some (Measurement.from_raw_data st1 buffer)),
        k' + 1, tr ++ [BusOp.read I2C_ADDRESS 8])
    else (Except.ok none, k', tr)

/-- Rust `blocking::Ak09916::switch_mode`: write power-down, wait the
mode-set time, write the target mode. -/
def switch_mode (target_mode : Mode) (resp : Resp ε) (k : Nat) :
    Except ε Unit × Nat × List BusOp :=
  match write_register8 regs.RegisterAddress.Cntl2
      (regs.Cntl2.toByte (regs.Cntl2.fromMode Mode.powerDown)) resp k with
  | (Except.error e, k', tr) => (Except.error e, k', tr)
  | (Except.ok _, k', tr) =>
    match write_register8 regs.RegisterAddress.Cntl2
        (regs.Cntl2.toByte (regs.Cntl2.fromMode target_mode)) resp k' with
    | (r, k'', tr') => (r, k'', tr ++ [BusOp.wait MODE_SET_WAIT_TIME_US] ++ tr')

/-- Rust `blocking::Ak09916::self_test`. -/
def self_test (resp : Resp ε) (fuel k : Nat) :
    Option (Except ε SelfTestResult) × Nat × List BusOp :=
  match switch_mode Mode.selfTest resp k with
  | (Except.error e, k', tr) => (some (Except.error e), k', tr)
  | (Except.ok _, k', tr) =>
    match poll_measurement 10 resp fuel k' with
    | (none, k'', tr') => (none, k'', tr ++ tr')
    | (some (Except.error e), k'', tr') => (some (Except.error e), k'', tr ++ tr')
    | (some (Except.ok m), k'', tr') =>
      (some (Except.ok (SelfTestResult.fromMeasurement m)), k'', tr ++ tr')

/-- The confirmation loop inside `blocking::Ak09916::soft_reset`, made
total with a fuel bound on the number of control-3 reads. -/
def soft_reset_loop (resp : Resp ε) :
    Nat → Nat → Option (Except ε Unit) × Nat × List BusOp
  | 0, k => (none, k, [])
  | fuel + 1, k =>
    match read_register8 regs.Cntl3.reg resp k with
    | (Except.error e, k', tr) =>
      (some (Except.error e), k', BusOp.wait MODE_SET_WAIT_TIME_US :: tr)
    | (Except.ok cntl3, k', tr) =>
      if regs.Cntl3.contains cntl3 regs.Cntl3.SRST then
        match soft_reset_loop resp fuel k' with
        | (r, k'', tr') => (r, k'', BusOp.wait MODE_SET_WAIT_TIME_US :: tr ++ tr')
      else (some (Except.ok ()), k', BusOp.wait MODE_SET_WAIT_TIME_US :: tr)

/-- Rust `blocking::Ak09916::soft_reset`: write the reset request, then
wait-and-read control 3 until the reset bit reads as cleared. -/
def soft_reset (resp : Resp ε) (fuel k : Nat) :
    Option (Except ε Unit) × Nat × List BusOp :=
  match write_register8 regs.RegisterAddress.Cntl3 regs.Cntl3.SRST resp k with
  | (Except.error e, k', tr) => (some (Except.error e), k', tr)
  | (Except.ok _, k', tr) =>
    match soft_reset_loop resp fuel k' with
    | (r, k'', tr') => (r, k'', tr ++ tr')

/-- Rust `blocking::Ak09916::dump_registers`: one combined write-then-read
of 16 bytes starting at the Wia1 address. -/
def dump_registers (resp : Resp ε) (k : Nat) :
    Except ε regs.RegisterDump × Nat × List BusOp :=
  ((resp k).map (fun buffer => regs.RegisterDump.from_raw_data buffer), k + 1,
    [BusOp.writeRead I2C_ADDRESS [regs.RegisterAddress.Wia1] 16])

/-- The blocking driver: owns the bus handle and the delay provider. -/
structure Ak09916 (I D : Type) where
  i2c : I
  delay : D

/-- Rust `blocking::Ak09916::new`. -/
def Ak09916.new {I D : Type} (i2c : I) (delay : D) : Ak09916 I D := ⟨i2c, delay⟩

/-- Rust `blocking::Ak09916::release`. -/
def Ak09916.release {I D : Type} (s : Ak09916 I D) : I × D := (s.i2c, s.delay)

end blocking

namespace asynch

variable {ε : Type}

/-- Rust `asynch::Ak09916::read_register8`. -/
def read_register8 (reg : regs.Reg8) (resp : Resp ε) (k : Nat) :
    Except ε Nat × Nat × List BusOp :=
  ((resp k).map (fun buffer => reg.decode (byteAt buffer 0)), k + 1,
    [BusOp.writeRead I2C_ADDRESS [reg.addr] 1])

/-- Rust `asynch::Ak09916::read_register16`. -/
def read_register16 (reg : regs.Reg16) (resp : Resp ε) (k : Nat) :
    Except ε Int × Nat × List BusOp :=
  ((resp k).map (fun buffer => i16_from_le_bytes (byteAt buffer 0) (byteAt buffer 1)),
    k + 1, [BusOp.writeRead I2C_ADDRESS [reg.addr] 2])

/-- Rust `asynch::Ak09916::write_register8`. -/
def write_register8 (addr value : Nat) (resp : Resp ε) (k : Nat) :
    Except ε Unit × Nat × List BusOp :=
  ((resp k).map (fun _ => ()), k + 1, [BusOp.write I2C_ADDRESS [addr, value]])

/-- Rust `asynch::Ak09916::who_i_am`. -/
def who_i_am (resp : Resp ε) (k : Nat) : Except ε WhoIAm × Nat × List BusOp :=
  ((resp k).map (fun buffer =>
      ⟨regs.Wia1.fromByte (byteAt buffer 0), regs.Wia2.fromByte (byteAt buffer 1)⟩),
    k + 1, [BusOp.writeRead I2C_ADDRESS [regs.RegisterAddress.Wia1] 2])

/-- The status-polling loop inside `asynch::Ak09916::poll_measurement`. -/
def poll_loop (poll_interval_us : Nat) (resp : Resp ε) :
    Nat → Nat → Option (Except ε Nat) × Nat × List BusOp
  | 0, k => (none, k, [])
  | fuel + 1, k =>
    match read_register8 regs.St1.reg resp k with
    | (Except.error e, k', tr) => (some (Except.error e), k', tr)
    | (Except.ok st1, k', tr) =>
      if regs.St1.contains st1 regs.St1.DRDY then (some (Except.ok st1), k', tr)
      else
        match poll_loop poll_interval_us resp fuel k' with
        | (r, k'', tr') => (r, k'', tr ++ [BusOp.wait poll_interval_us] ++ tr')

/-- Rust `asynch::Ak09916::poll_measurement`. -/
def poll_measurement (poll_interval_us : Nat) (resp : Resp ε) (fuel k : Nat) :
    Option (Except ε Measurement) × Nat × List BusOp :=
  match poll_loop poll_interval_us resp fuel k with
  | (none, k', tr) => (none, k', tr)
  | (some (Except.error e), k', tr) => (some (Except.error e), k', tr)
  | (some (Except.ok st1), k', tr) =>
    (some ((resp k').map (fun buffer => Measurement.from_raw_data st1 buffer)),
      k' + 1, tr ++ [BusOp.read I2C_ADDRESS 8])

/-- Rust `asynch::Ak09916::read_measurement`. -/
def read_measurement (resp : Resp ε) (k : Nat) :
    Except ε (Option Measurement) × Nat × List BusOp :=
  match read_register8 regs.St1.reg resp k with
  | (Except.error e, k', tr) => (Except.error e, k', tr)
  | (Except.ok st1, k', tr) =>
    if regs.St1.contains st1 regs.St1.DRDY then
      ((resp k').map (fun buffer => some (Measurement.from_raw_data st1 buffer)),
        k' + 1, tr ++ [BusOp.read I2C_ADDRESS 8])
    else (Except.ok none, k', tr)

/-- Rust `asynch::Ak09916::switch_mode`. -/
def switch_mode (target_mode : Mode) (resp : Resp ε) (k : Nat) :
    Except ε Unit × Nat × List BusOp :=
  match write_register8 regs.RegisterAddress.Cntl2
      (regs.Cntl2.toByte (regs.Cntl2.fromMode Mode.powerDown)) resp k with
  | (Except.error e, k', tr) => (Except.error e, k', tr)
  | (Except.ok _, k', tr) =>
    match write_register8 regs.RegisterAddress.Cntl2
        (regs.Cntl2.toByte (regs.Cntl2.fromMode target_mode)) resp k' with
    | (r, k'', tr') => (r, k'', tr ++ [BusOp.wait MODE_SET_WAIT_TIME_US] ++ tr')

/-- Rust `asynch::Ak09916::self_test`. -/
def self_test (resp : Resp ε) (fuel k : Nat) :
    Option (Except ε SelfTestResult) × Nat × List BusOp :=
  match switch_mode Mode.selfTest resp k with
  | (Except.error e, k', tr) => (some (Except.error e), k', tr)
  | (Except.ok _, k', tr) =>
    match poll_measurement 10 resp fuel k' with
    | (none, k'', tr') => (none, k'', tr ++ tr')
    | (some (Except.error e), k'', tr') => (some (Except.error e), k'', tr ++ tr')
    | (some (Except.ok m), k'', tr') =>
      (some (Except.ok (SelfTestResult.fromMeasurement m)), k'', tr ++ tr')

/-- The confirmation loop inside `asynch::Ak09916::soft_reset`. -/
def soft_reset_loop (resp : Resp ε) :
    Nat → Nat → Option (Except ε Unit) × Nat × List BusOp
  | 0, k => (none, k, [])
  | fuel + 1, k =>
    match read_register8 regs.Cntl3.reg resp k with
    | (Except.error e, k', tr) =>
      (some (Except.error e), k', BusOp.wait MODE_SET_WAIT_TIME_US :: tr)
    | (Except.ok cntl3, k', tr) =>
      if regs.Cntl3.contains cntl3 regs.Cntl3.SRST then
        match soft_reset_loop resp fuel k' with
        | (r, k'', tr') => (r, k'', BusOp.wait MODE_SET_WAIT_TIME_US :: tr ++ tr')
      else (some (Except.ok ()), k', BusOp.wait MODE_SET_WAIT_TIME_US :: tr)

/-- Rust `asynch::Ak09916::soft_reset`. -/
def soft_reset (resp : Resp ε) (fuel k : Nat) :
    Option (Except ε Unit) × Nat × List BusOp :=
  match write_register8 regs.RegisterAddress.Cntl3 regs.Cntl3.SRST resp k with
  | (Except.error e, k', tr) => (some (Except.error e), k', tr)
  | (Except.ok _, k', tr) =>
    match soft_reset_loop resp fuel k' with
    | (r, k'', tr') => (r, k'', tr ++ tr')

/-- Rust `asynch::Ak09916::dump_registers`. -/
def dump_registers (resp : Resp ε) (k : Nat) :
    Except ε regs.RegisterDump × Nat × List BusOp :=
  ((resp k).map (fun buffer => regs.RegisterDump.from_raw_data buffer), k + 1,
    [BusOp.writeRead I2C_ADDRESS [regs.RegisterAddress.Wia1] 16])

/-- The asynchronous driver: owns the bus handle and the delay provider. -/
structure Ak09916 (I D : Type) where
  i2c : I
  delay : D

/-- Rust `asynch::Ak09916::new`. -/
def Ak09916.new {I D : Type} (i2c : I) (delay : D) : Ak09916 I D := ⟨i2c, delay⟩

/-- Rust `asynch::Ak09916::release`. -/
def Ak09916.release {I D : Type} (s : Ak09916 I D) : I × D := (s.i2c, s.delay)

end asynch

/-- Oracle whose every transaction succeeds with an empty answer. -/
def respOk : Resp Unit := fun _ => Except.ok []

/-- Oracle answering the transaction at index `i` with the single byte
`f i`. -/
def respOf (f : Nat → Nat) : Resp Unit := fun i => Except.ok [f i]

/-- Oracle like `respOf f` but failing with a transport error at
transaction index `m`. -/
def respErrAt (f : Nat → Nat) (m : Nat) : Resp Unit :=
  fun i => if i = m then Except.error () else Except.ok [f i]

/-- Any byte extracted by `byteAt` is a `u8` value. -/
theorem byteAt_lt (l : List Nat) (i : Nat) : byteAt l i < 256 :=
  Nat.mod_lt _ (by omega)

/-- The asynchronous and blocking `read_register8` agree. -/
theorem asynch_read_register8_eq {ε : Type} (reg : regs.Reg8) (resp : Resp ε) (k : Nat) :
    asynch.read_register8 reg resp k = blocking.read_register8 reg resp k := rfl

/-- The asynchronous and blocking `read_register16` agree. -/
theorem asynch_read_register16_eq {ε : Type} (reg : regs.Reg16) (resp : Resp ε) (k : Nat) :
    asynch.read_register16 reg resp k = blocking.read_register16 reg resp k := rfl

/-- The asynchronous and blocking `write_register8` agree. -/
theorem asynch_write_register8_eq {ε : Type} (addr value : Nat) (resp : Resp ε) (k : Nat) :
    asynch.write_register8 addr value resp k = blocking.write_register8 addr value resp k := rfl

/-- The asynchronous and blocking `who_i_am` agree. -/
theorem asynch_who_i_am_eq {ε : Type} (resp : Resp ε) (k : Nat) :
    asynch.who_i_am resp k = blocking.who_i_am resp k := rfl

/-- The asynchronous and blocking `dump_registers` agree. -/
theorem asynch_dump_registers_eq {ε : Type} (resp : Resp ε) (k : Nat) :
    asynch.dump_registers resp k = blocking.dump_registers resp k := rfl

/-- The asynchronous and blocking status-polling loops agree. -/
theorem asynch_poll_loop_eq {ε : Type} (p : Nat) (resp : Resp ε) (fuel : Nat) :
    ∀ k, asynch.poll_loop p resp fuel k = blocking.poll_loop p resp fuel k := by
  induction fuel with
  | zero => intro k; rfl
  | succ n ih =>
    intro k
    simp only [asynch.poll_loop, blocking.poll_loop, asynch.read_register8,
      blocking.read_register8]
    cases resp k with
    | error e => rfl
    | ok l =>
      simp only [Except.map]
      split
      · rfl
      · rw [ih]

/-- The asynchronous and blocking `poll_measurement` agree. -/
theorem asynch_poll_measurement_eq {ε : Type} (p : Nat) (resp : Resp ε) (fuel k : Nat) :
    asynch.poll_measurement p resp fuel k = blocking.poll_measurement p resp fuel k := by
  simp only [asynch.poll_measurement, blocking.poll_measurement, asynch_poll_loop_eq]

/-- The asynchronous and blocking `read_measurement` agree. -/
theorem asynch_read_measurement_eq {ε : Type} (resp : Resp ε) (k : Nat) :
    asynch.read_measurement resp k = blocking.read_measurement resp k := rfl

/-- The asynchronous and blocking `switch_mode` agree. -/
theorem asynch_switch_mode_eq {ε : Type} (target_mode : Mode) (resp : Resp ε) (k : Nat) :
    asynch.switch_mode target_mode resp k = blocking.switch_mode target_mode resp k := rfl

/-- The asynchronous and blocking `self_test` agree. -/
theorem asynch_self_test_eq {ε : Type} (resp : Resp ε) (fuel k : Nat) :
    asynch.self_test resp fuel k = blocking.self_test resp fuel k := by
  simp only [asynch.self_test, blocking.self_test, asynch_poll_measurement_eq,
    asynch_switch_mode_eq]

/-- The asynchronous and blocking reset-confirmation loops agree. -/
theorem asynch_soft_reset_loop_eq {ε : Type} (resp : Resp ε) (fuel : Nat) :
    ∀ k, asynch.soft_reset_loop resp fuel k = blocking.soft_reset_loop resp fuel k := by
  induction fuel with
  | zero => intro k; rfl
  | succ n ih =>
    intro k
    simp only [asynch.soft_reset_loop, blocking.soft_reset_loop, asynch.read_register8,
      blocking.read_register8]
    cases resp k with
    | error e => rfl
    | ok l =>
      simp only [Except.map]
      split
      · rw [ih]
      · rfl

/-- The asynchronous and blocking `soft_reset` agree. -/
theorem asynch_soft_reset_eq {ε : Type} (resp : Resp ε) (fuel k : Nat) :
    asynch.soft_reset resp fuel k = blocking.soft_reset resp fuel k := by
  simp only [asynch.soft_reset, blocking.soft_reset, asynch_soft_reset_loop_eq,
    asynch.write_register8, blocking.write_register8]

/-- An integer already inside the `i32` range is unchanged by wrapping. -/
theorem wrapI32_eq_self (v : Int) (h1 : -2147483648 ≤ v) (h2 : v ≤ 2147483647) :
    wrapI32 v = v := by
  unfold wrapI32
  omega

/-- Claim C1: for every target mode (including power-down itself),
`switch_mode` performs exactly two writes to the mode-control register in
order — first the power-down code, then the target mode's code — with
exactly one wait of 100 microseconds strictly between them and no other
bus operations, in both variants (provided the first write is not aborted
by a transport error, which in the code skips everything after it). -/
theorem C1_switch_mode_trace {ε : Type} (target_mode : Mode) (resp : Resp ε) (k : Nat)
    (h : (resp k).isOk = true) :
    (blocking.switch_mode target_mode resp k).2.2 =
      [BusOp.write I2C_ADDRESS [regs.RegisterAddress.Cntl2, Mode.toByte Mode.powerDown],
       BusOp.wait 100,
       BusOp.write I2C_ADDRESS [regs.RegisterAddress.Cntl2, Mode.toByte target_mode]]
    ∧ (asynch.switch_mode target_mode resp k).2.2 =
      [BusOp.write I2C_ADDRESS [regs.RegisterAddress.Cntl2, Mode.toByte Mode.powerDown],
       BusOp.wait 100,
       BusOp.write I2C_ADDRESS [regs.RegisterAddress.Cntl2, Mode.toByte target_mode]] := by
  cases hk : resp k with
  | error e => rw [hk] at h; simp [Except.isOk, Except.toBool] at h
  | ok l =>
    have hb : (blocking.switch_mode target_mode resp k).2.2 =
        [BusOp.write I2C_ADDRESS [regs.RegisterAddress.Cntl2, Mode.toByte Mode.powerDown],
         BusOp.wait 100,
         BusOp.write I2C_ADDRESS [regs.RegisterAddress.Cntl2, Mode.toByte target_mode]] := by
      simp [blocking.switch_mode, blocking.write_register8, hk, MODE_SET_WAIT_TIME_US,
        regs.Cntl2.toByte, regs.Cntl2.fromMode, regs.ModeRegister.toByte, Except.map]
    exact ⟨hb, by rw [asynch_switch_mode_eq]; exact hb⟩

/-- Witness for C1 at the power-down target itself on an all-ok bus. -/
theorem C1_witness :
    (blocking.switch_mode Mode.powerDown respOk 0).2.2 =
      [BusOp.write I2C_ADDRESS [regs.RegisterAddress.Cntl2, Mode.toByte Mode.powerDown],
       BusOp.wait 100,
       BusOp.write I2C_ADDRESS [regs.RegisterAddress.Cntl2, Mode.toByte Mode.powerDown]]
    ∧ (asynch.switch_mode Mode.powerDown respOk 0).2.2 =
      [BusOp.write I2C_ADDRESS [regs.RegisterAddress.Cntl2, Mode.toByte Mode.powerDown],
       BusOp.wait 100,
       BusOp.write I2C_ADDRESS [regs.RegisterAddress.Cntl2, Mode.toByte Mode.powerDown]] :=
  C1_switch_mode_trace Mode.powerDown respOk 0 rfl

/-- Claim C5: self-test validity is a pure function of the measurement,
holding exactly on the bands hx, hy in the closed interval from -200 to
200 and hz in the closed interval from -1000 to -200, with the three
concrete cases from the specification. -/
theorem C5_self_test_validity :
    (∀ m : Measurement,
      ((SelfTestResult.fromMeasurement m).is_valid = true ↔
        (-200 ≤ m.hx ∧ m.hx ≤ 200 ∧ -200 ≤ m.hy ∧ m.hy ≤ 200 ∧
          -1000 ≤ m.hz ∧ m.hz ≤ -200)))
  ∧ (SelfTestResult.fromMeasurement ⟨0, 0, -500, 0⟩).is_valid = true
  ∧ (SelfTestResult.fromMeasurement ⟨300, 0, -500, 0⟩).is_valid = false
  ∧ (SelfTestResult.fromMeasurement ⟨0, 0, -100, 0⟩).is_valid = false := by
  refine ⟨fun m => ?_, by decide, by decide, by decide⟩
  simp [SelfTestResult.fromMeasurement]

/-- Witness for C5 at the valid concrete measurement. -/
theorem C5_witness :
    (SelfTestResult.fromMeasurement ⟨0, 0, -500, 0⟩).is_valid = true :=
  (C5_self_test_validity.1 ⟨0, 0, -500, 0⟩).mpr (by norm_num)

/-- Claim C6: every transparent 8-bit register codec round-trips every byte
exactly, and each bit-set register codec (status 1, status 2, control 3)
round-trips a byte to exactly its documented flag bits (for status 2 the
documented flag set includes the three named reserved bits 4 to 6). -/
theorem C6_codec_roundtrip :
    (∀ b : Nat,
      regs.Wia1.toByte (regs.Wia1.fromByte b) = b ∧
      regs.Wia2.toByte (regs.Wia2.fromByte b) = b ∧
      regs.Hxl.toByte (regs.Hxl.fromByte b) = b ∧
      regs.Hxh.toByte (regs.Hxh.fromByte b) = b ∧
      regs.Hyl.toByte (regs.Hyl.fromByte b) = b ∧
      regs.Hyh.toByte (regs.Hyh.fromByte b) = b ∧
      regs.Hzl.toByte (regs.Hzl.fromByte b) = b ∧
      regs.Hzh.toByte (regs.Hzh.fromByte b) = b)
  ∧ (∀ b : Nat,
      regs.St1.toByte (regs.St1.fromByte b) = b &&& 0b00000011 ∧
      regs.St2.toByte (regs.St2.fromByte b) = b &&& 0b01111000 ∧
      regs.Cntl3.toByte (regs.Cntl3.fromByte b) = b &&& 0b00000001) :=
  ⟨fun _ => ⟨rfl, rfl, rfl, rfl, rfl, rfl, rfl, rfl⟩, fun _ => ⟨rfl, rfl, rfl⟩⟩

/-- Claim C7: the nanotesla conversions compute exactly the raw count times
150 with no `i32` overflow, for every representable signed 16-bit count. -/
theorem C7_nanoteslas (m : Measurement)
    (hx1 : -32768 ≤ m.hx) (hx2 : m.hx ≤ 32767)
    (hy1 : -32768 ≤ m.hy) (hy2 : m.hy ≤ 32767)
    (hz1 : -32768 ≤ m.hz) (hz2 : m.hz ≤ 32767) :
    m.x_nanoteslas = m.hx * 150 ∧ m.y_nanoteslas = m.hy * 150 ∧
      m.z_nanoteslas = m.hz * 150 := by
  refine ⟨?_, ?_, ?_⟩ <;>
    simp only [Measurement.x_nanoteslas, Measurement.y_nanoteslas,
      Measurement.z_nanoteslas, SENSITIVITY_NT_PER_BIT] <;>
    (apply wrapI32_eq_self <;> omega)

/-- Witness for C7 at the concrete measurement (100, -50, -800). -/
theorem C7_witness :
    (⟨100, -50, -800, 0⟩ : Measurement).x_nanoteslas = (100 : Int) * 150 ∧
    (⟨100, -50, -800, 0⟩ : Measurement).y_nanoteslas = (-50 : Int) * 150 ∧
    (⟨100, -50, -800, 0⟩ : Measurement).z_nanoteslas = (-800 : Int) * 150 :=
  C7_nanoteslas ⟨100, -50, -800, 0⟩ (by norm_num) (by norm_num) (by norm_num)
    (by norm_num) (by norm_num) (by norm_num)

/-- Claim C9: for every high-level operation and the low-level register
accessors, the blocking and the cooperatively-suspending variant issue the
identical sequence of bus operations and waits and return identical
results when given identical bus responses. -/
theorem C9_variants_agree :
    (∀ (ε : Type) (reg : regs.Reg8) (resp : Resp ε) (k : Nat),
      asynch.read_register8 reg resp k = blocking.read_register8 reg resp k)
  ∧ (∀ (ε : Type) (reg : regs.Reg16) (resp : Resp ε) (k : Nat),
      asynch.read_register16 reg resp k = blocking.read_register16 reg resp k)
  ∧ (∀ (ε : Type) (addr value : Nat) (resp : Resp ε) (k : Nat),
      asynch.write_register8 addr value resp k = blocking.write_register8 addr value resp k)
  ∧ (∀ (ε : Type) (resp : Resp ε) (k : Nat),
      asynch.who_i_am resp k = blocking.who_i_am resp k)
  ∧ (∀ (ε : Type) (p : Nat) (resp : Resp ε) (fuel k : Nat),
      asynch.poll_measurement p resp fuel k = blocking.poll_measurement p resp fuel k)
  ∧ (∀ (ε : Type) (resp : Resp ε) (k : Nat),
      asynch.read_measurement resp k = blocking.read_measurement resp k)
  ∧ (∀ (ε : Type) (target_mode : Mode) (resp : Resp ε) (k : Nat),
      asynch.switch_mode target_mode resp k = blocking.switch_mode target_mode resp k)
  ∧ (∀ (ε : Type) (resp : Resp ε) (fuel k : Nat),
      asynch.self_test resp fuel k = blocking.self_test resp fuel k)
  ∧ (∀ (ε : Type) (resp : Resp ε) (fuel k : Nat),
      asynch.soft_reset resp fuel k = blocking.soft_reset resp fuel k)
  ∧ (∀ (ε : Type) (resp : Resp ε) (k : Nat),
      asynch.dump_registers resp k = blocking.dump_registers resp k) :=
  ⟨fun _ => asynch_read_register8_eq,
   fun _ => asynch_read_register16_eq,
   fun _ => asynch_write_register8_eq,
   fun _ => asynch_who_i_am_eq,
   fun _ p resp fuel k => asynch_poll_measurement_eq p resp fuel k,
   fun _ => asynch_read_measurement_eq,
   fun _ => asynch_switch_mode_eq,
   fun _ resp fuel k => asynch_self_test_eq resp fuel k,
   fun _ resp fuel k => asynch_soft_reset_eq resp fuel k,
   fun _ => asynch_dump_registers_eq⟩

/-- Claim C10: for both variants, constructing the driver from a bus
handle and a delay provider and then releasing it returns exactly that
pair; construction and release are pure and touch no oracle. -/
theorem C10_new_release :
    ∀ (I D : Type) (i : I) (d : D),
      (blocking.Ak09916.new i d).release = (i, d) ∧
      (asynch.Ak09916.new i d).release = (i, d) :=
  fun _ _ _ _ => ⟨rfl, rfl⟩

set_option maxRecDepth 8192

/-- Reduction modulo 256 keeps the parity bit. -/
theorem mod256_mod2 (x : Nat) : x % 256 % 2 = x % 2 :=
  Nat.mod_mod_of_dvd x (by norm_num)

/-- Decoding a status-1 byte and testing the data-ready flag tests bit 0. -/
theorem st1_drdy_eq : ∀ b, b < 256 →
    regs.St1.contains (regs.St1.fromByte b) regs.St1.DRDY = (b % 2 == 1) := by decide

/-- Decoding a status-1 byte and testing the data-overrun flag tests bit 1. -/
theorem st1_dor_eq : ∀ b, b < 256 →
    regs.St1.contains (regs.St1.fromByte b) regs.St1.DOR = b.testBit 1 := by decide

/-- Decoding a status-2 byte and testing the overflow flag tests bit 3. -/
theorem st2_hofl_eq : ∀ b, b < 256 →
    regs.St2.contains (regs.St2.fromByte b) regs.St2.HOFL = b.testBit 3 := by decide

/-- Decoding a control-3 byte and testing the reset flag tests bit 0. -/
theorem cntl3_srst_eq : ∀ b, b < 256 →
    regs.Cntl3.contains (regs.Cntl3.fromByte b) regs.Cntl3.SRST = (b % 2 == 1) := by decide

/-- The combined measurement flag byte contains the overrun flag exactly
when the status-1 overrun condition held. -/
theorem flags_overrun (a b : Bool) :
    MeasurementFlags.contains
      ((if a then MeasurementFlags.OVERRUN else 0) |||
        (if b then MeasurementFlags.OVERFLOW else 0)) MeasurementFlags.OVERRUN = a := by
  cases a <;> cases b <;> rfl

/-- The combined measurement flag byte contains the overflow flag exactly
when the status-2 overflow condition held. -/
theorem flags_overflow (a b : Bool) :
    MeasurementFlags.contains
      ((if a then MeasurementFlags.OVERRUN else 0) |||
        (if b then MeasurementFlags.OVERFLOW else 0)) MeasurementFlags.OVERFLOW = b := by
  cases a <;> cases b <;> rfl

/-- Characterisation of the little-endian signed 16-bit decode: congruent
to lo plus 256 times hi modulo 65536, and within the `i16` range. -/
theorem i16_spec (lo hi : Nat) (hlo : lo < 256) (hhi : hi < 256) :
    i16_from_le_bytes lo hi % 65536 = (lo : Int) + 256 * (hi : Int)
    ∧ -32768 ≤ i16_from_le_bytes lo hi ∧ i16_from_le_bytes lo hi ≤ 32767 := by
  simp only [i16_from_le_bytes]
  rw [Nat.mod_eq_of_lt hlo, Nat.mod_eq_of_lt hhi]
  refine ⟨?_, ?_, ?_⟩ <;> (split <;> push_cast <;> omega)

/-- Claim C4 (general part + concrete instance): measurement decoding is a
pure function of the 8-byte block and the status-1 byte; the first six
bytes decode as three little-endian signed 16-bit counts in x, y, z order,
the overflow flag is bit 3 of the eighth byte, the overrun flag is bit 1
of the status-1 byte, and the specification's concrete block decodes to
(100, -50, -800) with both flags set. -/
theorem C4_measurement_decode :
    (∀ (s : Nat) (buffer : List Nat) (m : Measurement), s < 256 →
      m = Measurement.from_raw_data (regs.St1.fromByte s) buffer →
      (m.overrun = s.testBit 1
        ∧ m.overflow = (byteAt buffer 7).testBit 3
        ∧ m.hx % 65536 = (byteAt buffer 0 : Int) + 256 * (byteAt buffer 1 : Int)
        ∧ -32768 ≤ m.hx ∧ m.hx ≤ 32767
        ∧ m.hy % 65536 = (byteAt buffer 2 : Int) + 256 * (byteAt buffer 3 : Int)
        ∧ -32768 ≤ m.hy ∧ m.hy ≤ 32767
        ∧ m.hz % 65536 = (byteAt buffer 4 : Int) + 256 * (byteAt buffer 5 : Int)
        ∧ -32768 ≤ m.hz ∧ m.hz ≤ 32767))
  ∧ Measurement.from_raw_data (regs.St1.fromByte 2) [100, 0, 206, 255, 224, 252, 0, 8]
      = ⟨100, -50, -800, 10⟩
  ∧ (Measurement.from_raw_data (regs.St1.fromByte 2)
      [100, 0, 206, 255, 224, 252, 0, 8]).overrun = true
  ∧ (Measurement.from_raw_data (regs.St1.fromByte 2)
      [100, 0, 206, 255, 224, 252, 0, 8]).overflow = true := by
  refine ⟨fun s buffer m hs hm => ?_, by decide, by decide, by decide⟩
  subst hm
  obtain ⟨ex1, ex2, ex3⟩ :=
    i16_spec (byteAt buffer 0) (byteAt buffer 1) (byteAt_lt _ _) (byteAt_lt _ _)
  obtain ⟨ey1, ey2, ey3⟩ :=
    i16_spec (byteAt buffer 2) (byteAt buffer 3) (byteAt_lt _ _) (byteAt_lt _ _)
  obtain ⟨ez1, ez2, ez3⟩ :=
    i16_spec (byteAt buffer 4) (byteAt buffer 5) (byteAt_lt _ _) (byteAt_lt _ _)
  refine ⟨?_, ?_, ex1, ex2, ex3, ey1, ey2, ey3, ez1, ez2, ez3⟩
  · simp only [Measurement.from_raw_data, Measurement.overrun]
    rw [flags_overrun]
    exact st1_dor_eq s hs
  · simp only [Measurement.from_raw_data, Measurement.overflow]
    rw [flags_overflow]
    exact st2_hofl_eq _ (byteAt_lt _ _)

/-- Witness for C4: the concrete block with status-1 byte 2 has the
overrun flag exactly as bit 1 of that byte. -/
theorem C4_witness :
    (Measurement.from_raw_data (regs.St1.fromByte 2)
      [100, 0, 206, 255, 224, 252, 0, 8]).overrun = Nat.testBit 2 1 :=
  (C4_measurement_decode.1 2 [100, 0, 206, 255, 224, 252, 0, 8] _ (by norm_num) rfl).1

/-- Counterexample to C2 as stated: with data ready at once, the second
bus operation of `poll_measurement` — the fetch of the 8-byte measurement
block — is a bare read, not a combined write-then-read transaction. -/
theorem C2_counterexample :
    (blocking.poll_measurement 10 (respOf (fun _ => 1)) 1 0).2.2 =
      [BusOp.writeRead I2C_ADDRESS [regs.RegisterAddress.St1] 1,
       BusOp.read I2C_ADDRESS 8]
    ∧ BusOp.isWriteRead
        ((blocking.poll_measurement 10 (respOf (fun _ => 1)) 1 0).2.2.getD 1 (BusOp.wait 0))
      = false := by
  exact ⟨rfl, rfl⟩

/-- Claim C2 as amended: once the data-ready bit is observed set, the
driver fetches the 8-byte measurement block with one bare 8-byte read (no
register-address write in that transaction), relying on the device's
address pointer after the combined write-then-read of status 1; this holds
for `poll_measurement` and `read_measurement` in both variants. -/
theorem C2_amended {ε : Type} (p fuel k : Nat) (resp : Resp ε) (l : List Nat)
    (h : resp k = Except.ok l) (hready : byteAt l 0 % 2 = 1) :
    (blocking.poll_measurement p resp (fuel + 1) k).2.2 =
      [BusOp.writeRead I2C_ADDRESS [regs.RegisterAddress.St1] 1,
       BusOp.read I2C_ADDRESS 8]
    ∧ (blocking.read_measurement resp k).2.2 =
      [BusOp.writeRead I2C_ADDRESS [regs.RegisterAddress.St1] 1,
       BusOp.read I2C_ADDRESS 8]
    ∧ (asynch.poll_measurement p resp (fuel + 1) k).2.2 =
      [BusOp.writeRead I2C_ADDRESS [regs.RegisterAddress.St1] 1,
       BusOp.read I2C_ADDRESS 8]
    ∧ (asynch.read_measurement resp k).2.2 =
      [BusOp.writeRead I2C_ADDRESS [regs.RegisterAddress.St1] 1,
       BusOp.read I2C_ADDRESS 8] := by
  have hdrdy : regs.St1.contains (regs.St1.fromByte (byteAt l 0)) regs.St1.DRDY = true := by
    rw [st1_drdy_eq _ (byteAt_lt l 0), hready]
    rfl
  have hp : (blocking.poll_measurement p resp (fuel + 1) k).2.2 =
      [BusOp.writeRead I2C_ADDRESS [regs.RegisterAddress.St1] 1,
       BusOp.read I2C_ADDRESS 8] := by
    simp [blocking.poll_measurement, blocking.poll_loop, blocking.read_register8,
      h, Except.map, regs.St1.reg, hdrdy]
  have hr : (blocking.read_measurement resp k).2.2 =
      [BusOp.writeRead I2C_ADDRESS [regs.RegisterAddress.St1] 1,
       BusOp.read I2C_ADDRESS 8] := by
    simp [blocking.read_measurement, blocking.read_register8, h, Except.map,
      regs.St1.reg, hdrdy]
  exact ⟨hp, hr, by rw [asynch_poll_measurement_eq]; exact hp,
    by rw [asynch_read_measurement_eq]; exact hr⟩

/-- Witness for the amended C2 on a concrete ready-at-once oracle. -/
theorem C2_witness :
    (blocking.poll_measurement 10 (respOf (fun _ => 1)) 1 0).2.2 =
      [BusOp.writeRead I2C_ADDRESS [regs.RegisterAddress.St1] 1,
       BusOp.read I2C_ADDRESS 8]
    ∧ (blocking.read_measurement (respOf (fun _ => 1)) 0).2.2 =
      [BusOp.writeRead I2C_ADDRESS [regs.RegisterAddress.St1] 1,
       BusOp.read I2C_ADDRESS 8]
    ∧ (asynch.poll_measurement 10 (respOf (fun _ => 1)) 1 0).2.2 =
      [BusOp.writeRead I2C_ADDRESS [regs.RegisterAddress.St1] 1,
       BusOp.read I2C_ADDRESS 8]
    ∧ (asynch.read_measurement (respOf (fun _ => 1)) 0).2.2 =
      [BusOp.writeRead I2C_ADDRESS [regs.RegisterAddress.St1] 1,
       BusOp.read I2C_ADDRESS 8] :=
  C2_amended 10 0 0 (respOf (fun _ => 1)) [1] rfl rfl

/-- The 16-byte register-dump fixture used for C3. -/
def dumpFixture : List Nat :=
  [0x48, 0x09, 0xAA, 0xBB, 0x03, 100, 0, 206, 255, 224, 252, 0x77, 0x08, 0x55, 0x02, 0x01]

/-- Counterexample to C3 as stated: the byte at offset 6 of the 16-byte
block is not discarded — it is the X-axis high byte — so two buffers that
agree everywhere except offset 6 decode to different snapshots. -/
theorem C3_counterexample :
    ((List.range 16).all (fun i => i == 6 ||
        ([0, 0, 0, 0, 0, 0, 0, 0, 0, 0, 0, 0, 0, 0, 0, 0].getD i 0 ==
          [0, 0, 0, 0, 0, 0, 1, 0, 0, 0, 0, 0, 0, 0, 0, 0].getD i 0))) = true
    ∧ regs.RegisterDump.from_raw_data [0, 0, 0, 0, 0, 0, 1, 0, 0, 0, 0, 0, 0, 0, 0, 0]
        ≠ regs.RegisterDump.from_raw_data [0, 0, 0, 0, 0, 0, 0, 0, 0, 0, 0, 0, 0, 0, 0, 0]
    ∧ (regs.RegisterDump.from_raw_data
        [0, 0, 0, 0, 0, 0, 1, 0, 0, 0, 0, 0, 0, 0, 0, 0]).hx = 256 := by
  refine ⟨by decide, by decide, by decide⟩

/-- Claim C3 as amended: `dump_registers` performs one combined read of 16
contiguous bytes starting at the identity register address and decodes
fixed byte offsets field-for-field; the discarded bytes are the two
leading reserved bytes (offsets 2 and 3) and the dummy bytes at offsets 11
(temperature) and 13 (control 1), while offset 6 is the X-axis high byte;
the known fixture reproduces its snapshot field-for-field. -/
theorem C3_dump_decode {ε : Type} (resp : Resp ε) (k : Nat) (buffer : List Nat)
    (h : resp k = Except.ok buffer) :
    blocking.dump_registers resp k =
      (Except.ok (regs.RegisterDump.from_raw_data buffer), k + 1,
        [BusOp.writeRead I2C_ADDRESS [0x00] 16])
    ∧ asynch.dump_registers resp k =
      (Except.ok (regs.RegisterDump.from_raw_data buffer), k + 1,
        [BusOp.writeRead I2C_ADDRESS [0x00] 16])
    ∧ (∀ (a0 a1 a2 a3 a4 a5 a6 a7 a8 a9 a10 a11 a12 a13 a14 a15 c2 c3 c11 c13 : Nat),
        regs.RegisterDump.from_raw_data
            [a0, a1, c2, c3, a4, a5, a6, a7, a8, a9, a10, c11, a12, c13, a14, a15]
          = regs.RegisterDump.from_raw_data
            [a0, a1, a2, a3, a4, a5, a6, a7, a8, a9, a10, a11, a12, a13, a14, a15])
    ∧ regs.RegisterDump.from_raw_data dumpFixture =
        ⟨0x48, 0x09, 3, 100, -50, -800, 8, regs.ModeRegister.mode Mode.continuous10Hz, 1⟩ := by
  have hb : blocking.dump_registers resp k =
      (Except.ok (regs.RegisterDump.from_raw_data buffer), k + 1,
        [BusOp.writeRead I2C_ADDRESS [0x00] 16]) := by
    simp [blocking.dump_registers, h, Except.map, regs.RegisterAddress.Wia1]
  refine ⟨hb, by rw [asynch_dump_registers_eq]; exact hb, ?_, by decide⟩
  intro a0 a1 a2 a3 a4 a5 a6 a7 a8 a9 a10 a11 a12 a13 a14 a15 c2 c3 c11 c13
  rfl

/-- Witness for the amended C3 on a concrete oracle answering the fixture. -/
theorem C3_witness :
    blocking.dump_registers (fun _ => (Except.ok dumpFixture : Except Unit (List Nat))) 0 =
      (Except.ok (regs.RegisterDump.from_raw_data dumpFixture), 1,
        [BusOp.writeRead I2C_ADDRESS [0x00] 16]) :=
  (C3_dump_decode (fun _ => Except.ok dumpFixture) 0 dumpFixture rfl).1

/-- Trace of `n` reset-confirmation iterations: each is one wait of the
mode-set time followed by one combined read of control 3. -/
def srLoopTrace : Nat → List BusOp
  | 0 => []
  | n + 1 =>
    BusOp.wait 100 :: BusOp.writeRead I2C_ADDRESS [regs.RegisterAddress.Cntl3] 1 ::
      srLoopTrace n

/-- Expected full trace of `soft_reset` with `n` confirmation reads: the
reset-request write followed by `n` wait-then-read iterations. -/
def srTrace (n : Nat) : List BusOp :=
  BusOp.write I2C_ADDRESS [regs.RegisterAddress.Cntl3, regs.Cntl3.SRST] :: srLoopTrace n

/-- A control-3 read of one byte decodes to the parity of that byte. -/
theorem cntl3_read_eq (x : Nat) :
    regs.Cntl3.contains (regs.Cntl3.fromByte (x % 256)) regs.Cntl3.SRST = (x % 2 == 1) := by
  rw [cntl3_srst_eq _ (Nat.mod_lt _ (by omega)), mod256_mod2]

/-- The reset-confirmation loop with `n` set-reads followed by a clear
read succeeds after exactly `n + 1` wait-then-read iterations. -/
theorem soft_reset_loop_clears (f : Nat → Nat) :
    ∀ (n fuel k : Nat), (∀ j, j < n → f (k + j) % 2 = 1) → f (k + n) % 2 = 0 → n < fuel →
      blocking.soft_reset_loop (respOf f) fuel k =
        (some (Except.ok ()), k + n + 1, srLoopTrace (n + 1)) := by
  intro n
  induction n with
  | zero =>
    intro fuel k hset hclear hfuel
    obtain ⟨m, rfl⟩ : ∃ m, fuel = m + 1 := ⟨fuel - 1, by omega⟩
    simp only [Nat.add_zero] at hclear
    have hc : regs.Cntl3.contains (regs.Cntl3.fromByte (f k % 256)) regs.Cntl3.SRST
        = false := by
      rw [cntl3_read_eq, hclear]
      rfl
    simp [blocking.soft_reset_loop, blocking.read_register8, respOf, Except.map,
      regs.Cntl3.reg, byteAt, hc, srLoopTrace, MODE_SET_WAIT_TIME_US]
  | succ n ih =>
    intro fuel k hset hclear hfuel
    obtain ⟨m, rfl⟩ : ∃ m, fuel = m + 1 := ⟨fuel - 1, by omega⟩
    have h0 := hset 0 (by omega)
    simp only [Nat.add_zero] at h0
    have hc : regs.Cntl3.contains (regs.Cntl3.fromByte (f k % 256)) regs.Cntl3.SRST
        = true := by
      rw [cntl3_read_eq, h0]
      rfl
    have ihh := ih m (k + 1)
      (fun j hj => by
        have hs := hset (j + 1) (by omega)
        rwa [show k + (j + 1) = k + 1 + j by omega] at hs)
      (by
        have hs := hclear
        rwa [show k + (n + 1) = k + 1 + n by omega] at hs)
      (by omega)
    simp [blocking.soft_reset_loop, blocking.read_register8, respOf, Except.map,
      regs.Cntl3.reg, byteAt, hc, ihh, srLoopTrace, MODE_SET_WAIT_TIME_US]
    all_goals omega

/-- If every confirmation read keeps showing the reset bit set, the loop
is still running whenever the fuel runs out, whatever the fuel. -/
theorem soft_reset_loop_stuck (f : Nat → Nat) :
    ∀ fuel k, (∀ j, f (k + j) % 2 = 1) →
      blocking.soft_reset_loop (respOf f) fuel k = (none, k + fuel, srLoopTrace fuel) := by
  intro fuel
  induction fuel with
  | zero => intro k hset; simp [blocking.soft_reset_loop, srLoopTrace]
  | succ m ih =>
    intro k hset
    have h0 := hset 0
    simp only [Nat.add_zero] at h0
    have hc : regs.Cntl3.contains (regs.Cntl3.fromByte (f k % 256)) regs.Cntl3.SRST
        = true := by
      rw [cntl3_read_eq, h0]
      rfl
    have ihh := ih (k + 1) (fun j => by
      have hs := hset (j + 1)
      rwa [show k + (j + 1) = k + 1 + j by omega] at hs)
    simp [blocking.soft_reset_loop, blocking.read_register8, respOf, Except.map,
      regs.Cntl3.reg, byteAt, hc, ihh, srLoopTrace, MODE_SET_WAIT_TIME_US]
    all_goals omega

/-- The reset-confirmation loop propagates a transport error occurring at
the read after `n` set-reads, with the failing read still in the trace. -/
theorem soft_reset_loop_err (f : Nat → Nat) :
    ∀ (n fuel k : Nat), (∀ j, j < n → f (k + j) % 2 = 1) → n < fuel →
      blocking.soft_reset_loop (respErrAt f (k + n)) fuel k =
        (some (Except.error ()), k + n + 1, srLoopTrace (n + 1)) := by
  intro n
  induction n with
  | zero =>
    intro fuel k hset hfuel
    obtain ⟨m, rfl⟩ : ∃ m, fuel = m + 1 := ⟨fuel - 1, by omega⟩
    simp [blocking.soft_reset_loop, blocking.read_register8, respErrAt, Except.map,
      regs.Cntl3.reg, srLoopTrace, MODE_SET_WAIT_TIME_US]
  | succ n ih =>
    intro fuel k hset hfuel
    obtain ⟨m, rfl⟩ : ∃ m, fuel = m + 1 := ⟨fuel - 1, by omega⟩
    rw [show k + (n + 1) = k + 1 + n by omega]
    have hne : ¬(k = k + 1 + n) := by omega
    have h0 := hset 0 (by omega)
    simp only [Nat.add_zero] at h0
    have hc : regs.Cntl3.contains (regs.Cntl3.fromByte (f k % 256)) regs.Cntl3.SRST
        = true := by
      rw [cntl3_read_eq, h0]
      rfl
    have ihh := ih m (k + 1)
      (fun j hj => by
        have hs := hset (j + 1) (by omega)
        rwa [show k + (j + 1) = k + 1 + j by omega] at hs)
      (by omega)
    simp [blocking.soft_reset_loop, blocking.read_register8, respErrAt, hne, Except.map,
      regs.Cntl3.reg, byteAt, hc, ihh, srLoopTrace, MODE_SET_WAIT_TIME_US]

/-- Claim C8: `soft_reset` first writes the reset-request bit to control 3,
then repeats wait-then-read; it returns success exactly when a read shows
the bit cleared, keeps running for every fuel bound while reads keep
showing it set (no internal retry limit or timeout), and propagates a
transport error from the read where it occurs — in both variants. -/
theorem C8_soft_reset :
    (∀ (f : Nat → Nat) (n fuel : Nat),
      (∀ j, j < n → f (1 + j) % 2 = 1) → f (1 + n) % 2 = 0 → n < fuel →
      (blocking.soft_reset (respOf f) fuel 0 = (some (Except.ok ()), n + 2, srTrace (n + 1))
        ∧ asynch.soft_reset (respOf f) fuel 0 = (some (Except.ok ()), n + 2, srTrace (n + 1))))
  ∧ (∀ (f : Nat → Nat) (fuel : Nat), (∀ j, f (1 + j) % 2 = 1) →
      (blocking.soft_reset (respOf f) fuel 0 = (none, fuel + 1, srTrace fuel)
        ∧ asynch.soft_reset (respOf f) fuel 0 = (none, fuel + 1, srTrace fuel)))
  ∧ (∀ (f : Nat → Nat) (n fuel : Nat),
      (∀ j, j < n → f (1 + j) % 2 = 1) → n < fuel →
      (blocking.soft_reset (respErrAt f (1 + n)) fuel 0 =
          (some (Except.error ()), n + 2, srTrace (n + 1))
        ∧ asynch.soft_reset (respErrAt f (1 + n)) fuel 0 =
          (some (Except.error ()), n + 2, srTrace (n + 1)))) := by
  refine ⟨fun f n fuel hset hclear hfuel => ?_, fun f fuel hset => ?_,
    fun f n fuel hset hfuel => ?_⟩
  · have hl := soft_reset_loop_clears f n fuel 1 hset hclear hfuel
    have hb : blocking.soft_reset (respOf f) fuel 0 =
        (some (Except.ok ()), n + 2, srTrace (n + 1)) := by
      simp [blocking.soft_reset, blocking.write_register8, respOf, Except.map, hl, srTrace]
      all_goals omega
    exact ⟨hb, by rw [asynch_soft_reset_eq]; exact hb⟩
  · have hl := soft_reset_loop_stuck f fuel 1 hset
    have hb : blocking.soft_reset (respOf f) fuel 0 = (none, fuel + 1, srTrace fuel) := by
      simp [blocking.soft_reset, blocking.write_register8, respOf, Except.map, hl, srTrace]
      all_goals omega
    exact ⟨hb, by rw [asynch_soft_reset_eq]; exact hb⟩
  · have hl := soft_reset_loop_err f n fuel 1 hset hfuel
    have hb : blocking.soft_reset (respErrAt f (1 + n)) fuel 0 =
        (some (Except.error ()), n + 2, srTrace (n + 1)) := by
      have hw : ¬((0 : Nat) = 1 + n) := by omega
      simp [blocking.soft_reset, blocking.write_register8, respErrAt, hw, Except.map,
        hl, srTrace]
      all_goals omega
    exact ⟨hb, by rw [asynch_soft_reset_eq]; exact hb⟩

/-- Witness for C8: one set-read then one clear read succeeds after two
confirmation reads. -/
theorem C8_witness :
    blocking.soft_reset (respOf (fun i => if i < 2 then 1 else 0)) 3 0 =
      (some (Except.ok ()), 3, srTrace 2)
    ∧ asynch.soft_reset (respOf (fun i => if i < 2 then 1 else 0)) 3 0 =
      (some (Except.ok ()), 3, srTrace 2) :=
  C8_soft_reset.1 (fun i => if i < 2 then 1 else 0) 1 3
    (fun j hj => by
      have hj0 : j = 0 := by omega
      subst hj0
      norm_num)
    (by norm_num) (by omega)
